import Mathlib

/-!
Verification of the lockbox command/session orchestration layer.

Embedded source files:
  src/cli/mod.rs       (run_cli, the command router)
  src/cli/commands.rs  (the legacy Command enum and Command::map)

The collaborators (PasswordStore, the action layer, the passwords crate
generator, the prompt capability) are supplied through explicit environment
records; run_cli and Command::map are embedded as functions from a command and
an environment to the ordered list of their observable events (prompts, vault
open attempts, action invocations, messages written to the output sink).
-/

/-- Numeric password length option of the args module.  Modelled from the spec:
the length option is a numeric value defaulting to 16; the source wraps it in an
enum Length whose variant Sixteen denotes 16 and whose method get_val returns
the numeric value.  We keep the wrapper so that signatures match the source. -/
structure Length where
  val : Nat
deriving DecidableEq

/-- Default length value Length::Sixteen used by the clap default_value_t
attributes in src/cli/commands.rs. -/
def Length.Sixteen : Length := ⟨16⟩

/-- Method Length::get_val, returning the numeric length. -/
def Length.get_val (l : Length) : Nat := l.val

/-- Configuration of the external passwords crate generator, restricted to the
fields set by the builder chain of the Add arm of run_cli
(src/cli/mod.rs lines 40-46). -/
structure PasswordGenerator where
  length : Nat
  lowercase_letters : Bool
  uppercase_letters : Bool
  numbers : Bool
  symbols : Bool
  strict : Bool
deriving DecidableEq

/-- Builder entry point PasswordGenerator::new() of the passwords crate; every
field of this record is overwritten by the chain in run_cli, so the initial
values are immaterial to the theorems below. -/
def PasswordGenerator.new : PasswordGenerator :=
  { length := 8, lowercase_letters := true, uppercase_letters := true,
    numbers := true, symbols := false, strict := false }

/-- Builder method length(n) of the passwords crate. -/
def PasswordGenerator.setLength (g : PasswordGenerator) (n : Nat) : PasswordGenerator :=
  { g with length := n }

/-- Builder method lowercase_letters(b) of the passwords crate. -/
def PasswordGenerator.setLowercase (g : PasswordGenerator) (b : Bool) : PasswordGenerator :=
  { g with lowercase_letters := b }

/-- Builder method uppercase_letters(b) of the passwords crate. -/
def PasswordGenerator.setUppercase (g : PasswordGenerator) (b : Bool) : PasswordGenerator :=
  { g with uppercase_letters := b }

/-- Builder method numbers(b) of the passwords crate. -/
def PasswordGenerator.setNumbers (g : PasswordGenerator) (b : Bool) : PasswordGenerator :=
  { g with numbers := b }

/-- Builder method symbols(b) of the passwords crate. -/
def PasswordGenerator.setSymbols (g : PasswordGenerator) (b : Bool) : PasswordGenerator :=
  { g with symbols := b }

/-- Builder method strict(b) of the passwords crate. -/
def PasswordGenerator.setStrict (g : PasswordGenerator) (b : Bool) : PasswordGenerator :=
  { g with strict := b }

/-- Generator configuration built at the top of the Add arm of run_cli
(src/cli/mod.rs lines 40-46):
PasswordGenerator::new().length(length.get_val()).lowercase_letters(lowercase)
.uppercase_letters(uppercase).numbers(numbers).symbols(symbols).strict(true). -/
def addPasswordGenerator (length : Length) (symbols uppercase lowercase numbers : Bool) :
    PasswordGenerator :=
  ((((((PasswordGenerator.new).setLength length.get_val).setLowercase
      lowercase).setUppercase uppercase).setNumbers numbers).setSymbols symbols).setStrict true

/-- Symbol characters of the generator alphabet, modelled coarsely as the
non-alphanumeric printable characters; the claims only distinguish the four
character classes from each other. -/
def isSymbolChar (c : Char) : Bool := !c.isAlphanum

/-- Character classes a configuration enables. -/
def PasswordGenerator.allowsChar (g : PasswordGenerator) (c : Char) : Bool :=
  (g.lowercase_letters && c.isLower) || (g.uppercase_letters && c.isUpper) ||
    (g.numbers && c.isDigit) || (g.symbols && isSymbolChar c)

/-- Modelled from the spec: the passwords crate generator contract — a produced
password has the configured length and draws only on the enabled classes, and
in strict mode it contains at least one character of every enabled class.  This
models PasswordGenerator::generate_one of the external crate, which is not part
of this repository. -/
def PasswordGenerator.isOutput (g : PasswordGenerator) (pw : List Char) : Bool :=
  decide (pw.length = g.length) && pw.all g.allowsChar &&
    (!g.strict ||
      ((!g.lowercase_letters || pw.any Char.isLower) &&
       (!g.uppercase_letters || pw.any Char.isUpper) &&
       (!g.numbers || pw.any Char.isDigit) &&
       (!g.symbols || pw.any isSymbolChar)))

namespace Args

/-- Modelled from the spec: the clap-parsed enum args::Command consumed by
run_cli lives in the args module, which is not under src/.  Its seven variants
and their fields are reconstructed exactly from the exhaustive match patterns of
run_cli (src/cli/mod.rs lines 26-181), which bind every field of every variant
without a rest pattern. -/
inductive Command
  | Add (file_name : Option String) (service : String) (username : Option String)
      (password : Option String) (master : Option String) (generate : Bool)
      (length : Length) (symbols uppercase lowercase numbers : Bool)
  | Generate (length : Length) (symbols uppercase lowercase numbers : Bool) (count : Nat)
  | List (file_name : Option String) (master : Option String) (show_passwords : Bool)
  | Remove (file_name : Option String) (service : String) (username : Option String)
      (master : Option String)
  | Show (file_name : Option String) (service : String) (username : Option String)
      (master : Option String)
  | UpdateMaster (file_name : Option String) (master : Option String)
      (new_master : Option String)
  | Repl (file_name : Option String)
deriving DecidableEq

end Args

/-- Modelled from the spec: the fixed default vault filename constant
DEFAULT_PASSWORD_FILENAME of the args module (not under src/); the claims
depend only on it being a fixed constant. -/
def DEFAULT_PASSWORD_FILENAME : String := "passwords.json"

/-- Modelled from the spec: get_password_store_path of the args module (not
under src/) resolves the explicit file-name option, and run_cli falls back to
the default via unwrap_or.  Spec 4.1 step 1: use the explicit file-name option
if present, else a fixed default filename. -/
def get_password_store_path (file_name : Option String) : Option String := file_name

/-- Action invocations dispatched by run_cli, carrying the already-resolved
arguments the source passes (the writer, prompt and store arguments are
implicit in the model). -/
inductive ActionCall
  | add_password (service : String) (username : Option String) (password : Option String)
      (generate : Bool) (password_generator : PasswordGenerator)
  | generate_password (length : Length) (symbols uppercase lowercase numbers : Bool)
      (count : Nat)
  | list_passwords (show_passwords : Bool)
  | remove_password (service : String) (username : Option String)
  | show_password (service : String) (username : Option String)
  | update_master_password (new_master : String)
  | repl (file_name : Option String)
deriving DecidableEq

/-- Observable events of one run_cli invocation, in order: non-echoing prompts
(read_hidden_input), vault open attempts (PasswordStore::new), action
invocations, and the messages the router itself writes to the output sink. -/
inductive Event
  | prompt (label : String)
  | openAttempt (path : String) (master : String)
  | invoke (call : ActionCall)
  | write (msg : String)
deriving DecidableEq

/-- Environment supplying the collaborators of run_cli: the non-echoing prompt
capability (read_hidden_input, returning the secret the user types for a given
label), vault opening (PasswordStore::new — some err models a failed open with
rendered message err, none models success), and the action layer (an error is
the typed action error, rendered by the router). -/
structure CliEnv where
  promptHidden : String → String
  openVault : String → String → Option String
  runAction : ActionCall → Except String Unit

/-- Mirrors master.unwrap_or_else(|| read_hidden_input(label, prompt_password))
in run_cli: the prompt events emitted and the resolved secret. -/
def resolveSecret (env : CliEnv) (label : String) : Option String → List Event × String
  | some s => ([], s)
  | none => ([Event.prompt label], env.promptHidden label)

/-- Shallow embedding of run_cli (src/cli/mod.rs lines 20-182): the ordered
list of observable events of routing one parsed command.  Each arm follows the
source: resolve the master passphrase (prompting when absent), resolve the
vault file path, attempt to open the store — on failure write the arm's error
rendering and return — then invoke the action and render its outcome. -/
def run_cli (env : CliEnv) : Args.Command → List Event
  | .Add file_name service username password master generate length symbols uppercase
      lowercase numbers =>
    let password_generator := addPasswordGenerator length symbols uppercase lowercase numbers
    let m := resolveSecret env "master password" master
    let file_path := (get_password_store_path file_name).getD DEFAULT_PASSWORD_FILENAME
    match env.openVault file_path m.2 with
    | some err => m.1 ++ [Event.openAttempt file_path m.2, Event.write err]
    | none =>
      let call := ActionCall.add_password service username password generate password_generator
      m.1 ++ [Event.openAttempt file_path m.2, Event.invoke call] ++
        match env.runAction call with
        | Except.ok _ => [Event.write "Password added successfully"]
        | Except.error err => [Event.write ("Error: " ++ err)]
  | .Generate length symbols uppercase lowercase numbers count =>
    let call := ActionCall.generate_password length symbols uppercase lowercase numbers count
    Event.invoke call ::
      (match env.runAction call with
       | Except.ok _ => []
       | Except.error err => [Event.write ("Error: " ++ err)])
  | .List file_name master show_passwords =>
    let m := resolveSecret env "master password" master
    let file_path := (get_password_store_path file_name).getD DEFAULT_PASSWORD_FILENAME
    match env.openVault file_path m.2 with
    | some err => m.1 ++ [Event.openAttempt file_path m.2, Event.write err]
    | none =>
      let call := ActionCall.list_passwords show_passwords
      m.1 ++ [Event.openAttempt file_path m.2, Event.invoke call] ++
        match env.runAction call with
        | Except.ok _ => []
        | Except.error err => [Event.write ("Error: " ++ err)]
  | .Remove file_name service username master =>
    let m := resolveSecret env "master password" master
    let file_path := (get_password_store_path file_name).getD DEFAULT_PASSWORD_FILENAME
    match env.openVault file_path m.2 with
    | some err => m.1 ++ [Event.openAttempt file_path m.2, Event.write err]
    | none =>
      let call := ActionCall.remove_password service username
      m.1 ++ [Event.openAttempt file_path m.2, Event.invoke call] ++
        match env.runAction call with
        | Except.ok _ => []
        | Except.error err => [Event.write ("Error: " ++ err)]
  | .Show file_name service username master =>
    let m := resolveSecret env "master password" master
    let file_path := (get_password_store_path file_name).getD DEFAULT_PASSWORD_FILENAME
    match env.openVault file_path m.2 with
    | some err => m.1 ++ [Event.openAttempt file_path m.2, Event.write ("Error: " ++ err)]
    | none =>
      let call := ActionCall.show_password service username
      m.1 ++ [Event.openAttempt file_path m.2, Event.invoke call] ++
        match env.runAction call with
        | Except.ok _ => []
        | Except.error err => [Event.write ("Error: " ++ err)]
  | .UpdateMaster file_name master new_master =>
    let m := resolveSecret env "master password" master
    let nm := resolveSecret env "new master password" new_master
    let file_path := (get_password_store_path file_name).getD DEFAULT_PASSWORD_FILENAME
    match env.openVault file_path m.2 with
    | some err => m.1 ++ nm.1 ++ [Event.openAttempt file_path m.2, Event.write ("Error: " ++ err)]
    | none =>
      let call := ActionCall.update_master_password nm.2
      m.1 ++ nm.1 ++ [Event.openAttempt file_path m.2, Event.invoke call] ++
        match env.runAction call with
        | Except.ok _ => []
        | Except.error err => [Event.write ("Failed to update master password: " ++ err)]
  | .Repl file_name => [Event.invoke (ActionCall.repl file_name)]

namespace Commands

/-- The legacy Command enum of src/cli/commands.rs (lines 9-73): five variants
(Add, Generate, List, Remove, Show), none of which declares a file_name
field. -/
inductive Command
  | Add (service : String) (username : Option String) (password : Option String)
      (master : Option String) (generate : Bool) (length : Length)
      (symbols uppercase lowercase numbers : Bool)
  | Generate (length : Length) (symbols uppercase lowercase numbers : Bool) (count : Nat)
  | List (master : Option String) (show_passwords : Bool)
  | Remove (service : String) (username : Option String) (master : Option String)
  | Show (service : String) (username : Option String) (master : Option String)
deriving DecidableEq

/-- Action-layer functions called by Command::map, carrying the arguments the
source passes (src/cli/commands.rs lines 76-121). -/
inductive ActionCall
  | get_random_password (length : Length) (symbols uppercase lowercase numbers : Bool)
  | add_password (service : String) (username : Option String) (master : Option String)
      (password : Option String)
  | generate_password (length : Length) (symbols uppercase lowercase numbers : Bool)
      (count : Nat)
  | list_passwords (master : Option String) (show_passwords : Bool)
  | remove_password (service : String) (username : Option String) (master : Option String)
  | show_password (service : String) (username : Option String) (master : Option String)
deriving DecidableEq

/-- Collaborating action layer of Command::map (module cli::actions, not under
src/): the generated random password and the results of the fallible actions;
generate_password returns unit in the source and needs no result here. -/
structure MapEnv where
  get_random_password : Length → Bool → Bool → Bool → Bool → String
  add_password : String → Option String → Option String → Option String → Except String Unit
  list_passwords : Option String → Bool → Except String Unit
  remove_password : String → Option String → Option String → Except String Unit
  show_password : String → Option String → Option String → Except String Unit

end Commands

/-- Ordered trace of the action calls Command::map makes. -/
abbrev MapTrace : Type := List Commands.ActionCall

namespace Commands

/-- Shallow embedding of Command::map (src/cli/commands.rs lines 76-121): the
ordered list of action calls it makes, paired with its outcome.  An outcome
Except.error msg models a panic raised by expect(msg) when the underlying
action returned a typed error; Except.ok models a normal return. -/
def Command.map (env : MapEnv) : Command → MapTrace × Except String Unit
  | Command.Add service username password master generate length symbols uppercase
      lowercase numbers =>
    let genCalls := if generate then
        [ActionCall.get_random_password length symbols uppercase lowercase numbers]
      else []
    let password := if generate then
        some (env.get_random_password length symbols uppercase lowercase numbers)
      else password
    let calls := genCalls ++ [ActionCall.add_password service username master password]
    match env.add_password service username master password with
    | Except.ok _ => (calls, Except.ok ())
    | Except.error _ => (calls, Except.error "Failed to add password")
  | Command.Generate length symbols uppercase lowercase numbers count =>
    ([ActionCall.generate_password length symbols uppercase lowercase numbers count],
      Except.ok ())
  | Command.List master show_passwords =>
    match env.list_passwords master show_passwords with
    | Except.ok _ => ([ActionCall.list_passwords master show_passwords], Except.ok ())
    | Except.error _ =>
      ([ActionCall.list_passwords master show_passwords], Except.error "Failed to get passwords")
  | Command.Remove service username master =>
    match env.remove_password service username master with
    | Except.ok _ => ([ActionCall.remove_password service username master], Except.ok ())
    | Except.error _ =>
      ([ActionCall.remove_password service username master],
        Except.error "Failed to remove password")
  | Command.Show service username master =>
    match env.show_password service username master with
    | Except.ok _ => ([ActionCall.show_password service username master], Except.ok ())
    | Except.error _ =>
      ([ActionCall.show_password service username master], Except.error "Failed to get passwords")

end Commands

/-- Predicate for prompt events. -/
def Event.isPrompt : Event → Bool
  | Event.prompt _ => true
  | _ => false

/-- Predicate for vault open attempts. -/
def Event.isOpenAttempt : Event → Bool
  | Event.openAttempt _ _ => true
  | _ => false

/-- Predicate for action invocations. -/
def Event.isInvoke : Event → Bool
  | Event.invoke _ => true
  | _ => false

/-- Messages the router itself wrote to the output sink, in order. -/
def writesOf (trace : List Event) : List String :=
  trace.filterMap fun ev => match ev with
    | Event.write msg => some msg
    | _ => none

/-- Labels of the non-echoing prompts issued, in order. -/
def promptLabelsOf (trace : List Event) : List String :=
  trace.filterMap fun ev => match ev with
    | Event.prompt label => some label
    | _ => none

/-- Master passphrases passed to vault open attempts, in order. -/
def openMastersOf (trace : List Event) : List String :=
  trace.filterMap fun ev => match ev with
    | Event.openAttempt _ master => some master
    | _ => none

/-- Vault file paths passed to vault open attempts, in order. -/
def openPathsOf (trace : List Event) : List String :=
  trace.filterMap fun ev => match ev with
    | Event.openAttempt path _ => some path
    | _ => none

/-- Vault-backed commands: those whose run_cli arm opens the password store
(Add, List, Remove, Show, UpdateMaster). -/
def Args.Command.isVaultBacked : Args.Command → Bool
  | Args.Command.Add _ _ _ _ _ _ _ _ _ _ _ => true
  | Args.Command.List _ _ _ => true
  | Args.Command.Remove _ _ _ _ => true
  | Args.Command.Show _ _ _ _ => true
  | Args.Command.UpdateMaster _ _ _ => true
  | _ => false

/-- Recognizer for the Generate variant. -/
def Args.Command.isGenerate : Args.Command → Bool
  | Args.Command.Generate _ _ _ _ _ _ => true
  | _ => false

/-- Master option carried by a command (none also for the two variants that
carry no master field). -/
def Args.Command.masterOpt : Args.Command → Option String
  | Args.Command.Add _ _ _ _ master _ _ _ _ _ _ => master
  | Args.Command.List _ master _ => master
  | Args.Command.Remove _ _ _ master => master
  | Args.Command.Show _ _ _ master => master
  | Args.Command.UpdateMaster _ master _ => master
  | _ => none

/-- File-name option carried by a command (none for Generate, which has no such
field). -/
def Args.Command.fileNameOpt : Args.Command → Option String
  | Args.Command.Add file_name _ _ _ _ _ _ _ _ _ _ => file_name
  | Args.Command.List file_name _ _ => file_name
  | Args.Command.Remove file_name _ _ _ => file_name
  | Args.Command.Show file_name _ _ _ => file_name
  | Args.Command.UpdateMaster file_name _ _ => file_name
  | Args.Command.Repl file_name => file_name
  | _ => none

/-- Whether a variant declares a file_name field at all, and if so its value:
every variant of args::Command except Generate declares one. -/
def Args.Command.fileNameField : Args.Command → Option (Option String)
  | Args.Command.Add file_name _ _ _ _ _ _ _ _ _ _ => some file_name
  | Args.Command.Generate _ _ _ _ _ _ => none
  | Args.Command.List file_name _ _ => some file_name
  | Args.Command.Remove file_name _ _ _ => some file_name
  | Args.Command.Show file_name _ _ _ => some file_name
  | Args.Command.UpdateMaster file_name _ _ => some file_name
  | Args.Command.Repl file_name => some file_name

/-- Tag of an args::Command variant, numbering the seven constructors. -/
def Args.Command.tagIdx : Args.Command → Fin 7
  | Args.Command.Add _ _ _ _ _ _ _ _ _ _ _ => 0
  | Args.Command.Generate _ _ _ _ _ _ => 1
  | Args.Command.List _ _ _ => 2
  | Args.Command.Remove _ _ _ _ => 3
  | Args.Command.Show _ _ _ _ => 4
  | Args.Command.UpdateMaster _ _ _ => 5
  | Args.Command.Repl _ => 6

/-- Vault file path run_cli resolves for a command: the explicit file-name
option when present, else the fixed default filename. -/
def resolvedPath (cmd : Args.Command) : String :=
  (get_password_store_path cmd.fileNameOpt).getD DEFAULT_PASSWORD_FILENAME

/-- Master passphrase run_cli resolves for a command: the explicit option when
present, else the value typed at the non-echoing master password prompt. -/
def resolvedMaster (env : CliEnv) (cmd : Args.Command) : String :=
  cmd.masterOpt.getD (env.promptHidden "master password")

/-- Prompt labels a vault-backed command is expected to produce: a master
password prompt exactly when the master option is absent, and for UpdateMaster
additionally a new master password prompt when the new-master option is
absent. -/
def expectedPromptLabels : Args.Command → List String
  | Args.Command.UpdateMaster _ master new_master =>
    (if master.isSome then [] else ["master password"]) ++
      (if new_master.isSome then [] else ["new master password"])
  | Args.Command.Generate _ _ _ _ _ _ => []
  | Args.Command.Repl _ => []
  | cmd => if cmd.masterOpt.isSome then [] else ["master password"]

/-- Action call run_cli dispatches for a command once its inputs are resolved
(for UpdateMaster the new master passphrase is the explicit option or the value
typed at the new master password prompt). -/
def dispatchedCall (env : CliEnv) : Args.Command → ActionCall
  | Args.Command.Add _ service username password _ generate length symbols uppercase
      lowercase numbers =>
    ActionCall.add_password service username password generate
      (addPasswordGenerator length symbols uppercase lowercase numbers)
  | Args.Command.Generate length symbols uppercase lowercase numbers count =>
    ActionCall.generate_password length symbols uppercase lowercase numbers count
  | Args.Command.List _ _ show_passwords => ActionCall.list_passwords show_passwords
  | Args.Command.Remove _ service username _ => ActionCall.remove_password service username
  | Args.Command.Show _ service username _ => ActionCall.show_password service username
  | Args.Command.UpdateMaster _ _ new_master =>
    ActionCall.update_master_password
      (new_master.getD (env.promptHidden "new master password"))
  | Args.Command.Repl file_name => ActionCall.repl file_name

/-- Rendering run_cli applies to a failed vault open: the Show and UpdateMaster
arms prepend the Error: prefix, the Add, List and Remove arms write the bare
error text. -/
def openFailRender : Args.Command → String → String
  | Args.Command.Show _ _ _ _, err => "Error: " ++ err
  | Args.Command.UpdateMaster _ _ _, err => "Error: " ++ err
  | _, err => err

/-- Rendering run_cli applies to a failed action: every arm prepends the
Error: prefix except UpdateMaster, which writes Failed to update master
password: followed by the error. -/
def actionFailRender : Args.Command → String → String
  | Args.Command.UpdateMaster _ _ _, err => "Failed to update master password: " ++ err
  | _, err => "Error: " ++ err

/-- Tag of a legacy commands.rs Command variant, numbering its five
constructors. -/
def Commands.Command.tagIdx : Commands.Command → Fin 5
  | Commands.Command.Add _ _ _ _ _ _ _ _ _ _ => 0
  | Commands.Command.Generate _ _ _ _ _ _ => 1
  | Commands.Command.List _ _ => 2
  | Commands.Command.Remove _ _ _ => 3
  | Commands.Command.Show _ _ _ => 4

/-- Whether a legacy commands.rs Command variant declares a file_name field:
none of the five variants does. -/
def Commands.Command.fileNameField : Commands.Command → Option (Option String)
  | Commands.Command.Add _ _ _ _ _ _ _ _ _ _ => none
  | Commands.Command.Generate _ _ _ _ _ _ => none
  | Commands.Command.List _ _ => none
  | Commands.Command.Remove _ _ _ => none
  | Commands.Command.Show _ _ _ => none

/-- Symbols option of a legacy command, where the variant carries one. -/
def Commands.Command.symbolsOf : Commands.Command → Option Bool
  | Commands.Command.Add _ _ _ _ _ _ symbols _ _ _ => some symbols
  | Commands.Command.Generate _ symbols _ _ _ _ => some symbols
  | _ => none

/-- Uppercase option of a legacy command, where the variant carries one. -/
def Commands.Command.uppercaseOf : Commands.Command → Option Bool
  | Commands.Command.Add _ _ _ _ _ _ _ uppercase _ _ => some uppercase
  | Commands.Command.Generate _ _ uppercase _ _ _ => some uppercase
  | _ => none

/-- Lowercase option of a legacy command, where the variant carries one. -/
def Commands.Command.lowercaseOf : Commands.Command → Option Bool
  | Commands.Command.Add _ _ _ _ _ _ _ _ lowercase _ => some lowercase
  | Commands.Command.Generate _ _ _ lowercase _ _ => some lowercase
  | _ => none

/-- Numbers option of a legacy command, where the variant carries one. -/
def Commands.Command.numbersOf : Commands.Command → Option Bool
  | Commands.Command.Add _ _ _ _ _ _ _ _ _ numbers => some numbers
  | Commands.Command.Generate _ _ _ _ numbers _ => some numbers
  | _ => none

/-- Numeric length option of a legacy command, where the variant carries one. -/
def Commands.Command.lengthOf : Commands.Command → Option Nat
  | Commands.Command.Add _ _ _ _ _ length _ _ _ _ => some length.get_val
  | Commands.Command.Generate length _ _ _ _ _ => some length.get_val
  | _ => none

/-- Count option of a legacy command, carried only by Generate. -/
def Commands.Command.countOf : Commands.Command → Option Nat
  | Commands.Command.Generate _ _ _ _ _ count => some count
  | _ => none

/-- Command parsed from the invocation lockbox add --service s alone: every
other option takes its clap default (src/cli/commands.rs lines 11-32):
username, password and master absent, generate false, length Sixteen, symbols
false, uppercase, lowercase and numbers true. -/
def Commands.addWithDefaults (service : String) : Commands.Command :=
  Commands.Command.Add service none none none false Length.Sixteen false true true true

/-- Command parsed from the invocation lockbox generate alone: every option
takes its clap default (src/cli/commands.rs lines 33-50): length Sixteen,
symbols false, uppercase, lowercase and numbers true, count 1. -/
def Commands.generateWithDefaults : Commands.Command :=
  Commands.Command.Generate Length.Sixteen false true true true 1

/-- Concrete router environment whose vault open always fails with message
boom. -/
def envOpenFail : CliEnv :=
  { promptHidden := fun _ => "typed"
    openVault := fun _ _ => some "boom"
    runAction := fun _ => Except.ok () }

/-- Concrete router environment whose vault open succeeds and whose actions all
fail with message kaput. -/
def envActionFail : CliEnv :=
  { promptHidden := fun _ => "typed"
    openVault := fun _ _ => none
    runAction := fun _ => Except.error "kaput" }

/-- Concrete router environment in which every collaborator succeeds. -/
def envAllOk : CliEnv :=
  { promptHidden := fun _ => "typed"
    openVault := fun _ _ => none
    runAction := fun _ => Except.ok () }

/-- Concrete action layer for Command::map in which add_password fails with a
typed error and the remaining actions succeed. -/
def mapEnvAddFail : Commands.MapEnv :=
  { get_random_password := fun _ _ _ _ _ => "r4nd0m"
    add_password := fun _ _ _ _ => Except.error "disk full"
    list_passwords := fun _ _ => Except.ok ()
    remove_password := fun _ _ _ => Except.ok ()
    show_password := fun _ _ _ => Except.ok () }

/-- Concrete action layer for Command::map in which every action succeeds. -/
def mapEnvAllOk : Commands.MapEnv :=
  { get_random_password := fun _ _ _ _ _ => "r4nd0m"
    add_password := fun _ _ _ _ => Except.ok ()
    list_passwords := fun _ _ => Except.ok ()
    remove_password := fun _ _ _ => Except.ok ()
    show_password := fun _ _ _ => Except.ok () }

@[simp]
theorem writesOf_nil : writesOf [] = [] := rfl

@[simp]
theorem writesOf_append (s t : List Event) : writesOf (s ++ t) = writesOf s ++ writesOf t := by
  simp [writesOf, List.filterMap_append]

@[simp]
theorem writesOf_cons_prompt (l : String) (t : List Event) :
    writesOf (Event.prompt l :: t) = writesOf t := rfl

@[simp]
theorem writesOf_cons_openAttempt (p m : String) (t : List Event) :
    writesOf (Event.openAttempt p m :: t) = writesOf t := rfl

@[simp]
theorem writesOf_cons_invoke (c : ActionCall) (t : List Event) :
    writesOf (Event.invoke c :: t) = writesOf t := rfl

@[simp]
theorem writesOf_cons_write (msg : String) (t : List Event) :
    writesOf (Event.write msg :: t) = msg :: writesOf t := rfl

@[simp]
theorem writesOf_resolveSecret_fst (env : CliEnv) (l : String) (o : Option String) :
    writesOf (resolveSecret env l o).1 = [] := by
  cases o <;> rfl

@[simp]
theorem promptLabelsOf_nil : promptLabelsOf [] = [] := rfl

@[simp]
theorem promptLabelsOf_append (s t : List Event) :
    promptLabelsOf (s ++ t) = promptLabelsOf s ++ promptLabelsOf t := by
  simp [promptLabelsOf, List.filterMap_append]

@[simp]
theorem promptLabelsOf_cons_prompt (l : String) (t : List Event) :
    promptLabelsOf (Event.prompt l :: t) = l :: promptLabelsOf t := rfl

@[simp]
theorem promptLabelsOf_cons_openAttempt (p m : String) (t : List Event) :
    promptLabelsOf (Event.openAttempt p m :: t) = promptLabelsOf t := rfl

@[simp]
theorem promptLabelsOf_cons_invoke (c : ActionCall) (t : List Event) :
    promptLabelsOf (Event.invoke c :: t) = promptLabelsOf t := rfl

@[simp]
theorem promptLabelsOf_cons_write (msg : String) (t : List Event) :
    promptLabelsOf (Event.write msg :: t) = promptLabelsOf t := rfl

@[simp]
theorem promptLabelsOf_resolveSecret_fst (env : CliEnv) (l : String) (o : Option String) :
    promptLabelsOf (resolveSecret env l o).1 = if o.isSome then [] else [l] := by
  cases o <;> rfl

@[simp]
theorem openMastersOf_nil : openMastersOf [] = [] := rfl

@[simp]
theorem openMastersOf_append (s t : List Event) :
    openMastersOf (s ++ t) = openMastersOf s ++ openMastersOf t := by
  simp [openMastersOf, List.filterMap_append]

@[simp]
theorem openMastersOf_cons_prompt (l : String) (t : List Event) :
    openMastersOf (Event.prompt l :: t) = openMastersOf t := rfl

@[simp]
theorem openMastersOf_cons_openAttempt (p m : String) (t : List Event) :
    openMastersOf (Event.openAttempt p m :: t) = m :: openMastersOf t := rfl

@[simp]
theorem openMastersOf_cons_invoke (c : ActionCall) (t : List Event) :
    openMastersOf (Event.invoke c :: t) = openMastersOf t := rfl

@[simp]
theorem openMastersOf_cons_write (msg : String) (t : List Event) :
    openMastersOf (Event.write msg :: t) = openMastersOf t := rfl

@[simp]
theorem openMastersOf_resolveSecret_fst (env : CliEnv) (l : String) (o : Option String) :
    openMastersOf (resolveSecret env l o).1 = [] := by
  cases o <;> rfl

@[simp]
theorem openPathsOf_nil : openPathsOf [] = [] := rfl

@[simp]
theorem openPathsOf_append (s t : List Event) :
    openPathsOf (s ++ t) = openPathsOf s ++ openPathsOf t := by
  simp [openPathsOf, List.filterMap_append]

@[simp]
theorem openPathsOf_cons_prompt (l : String) (t : List Event) :
    openPathsOf (Event.prompt l :: t) = openPathsOf t := rfl

@[simp]
theorem openPathsOf_cons_openAttempt (p m : String) (t : List Event) :
    openPathsOf (Event.openAttempt p m :: t) = p :: openPathsOf t := rfl

@[simp]
theorem openPathsOf_cons_invoke (c : ActionCall) (t : List Event) :
    openPathsOf (Event.invoke c :: t) = openPathsOf t := rfl

@[simp]
theorem openPathsOf_cons_write (msg : String) (t : List Event) :
    openPathsOf (Event.write msg :: t) = openPathsOf t := rfl

@[simp]
theorem openPathsOf_resolveSecret_fst (env : CliEnv) (l : String) (o : Option String) :
    openPathsOf (resolveSecret env l o).1 = [] := by
  cases o <;> rfl

@[simp]
theorem resolveSecret_snd (env : CliEnv) (l : String) (o : Option String) :
    (resolveSecret env l o).2 = o.getD (env.promptHidden l) := by
  cases o <;> rfl

/-- C1 (amended): routing a parsed command through run_cli writes at most one
terminal success or error message from the router itself and always returns
normally — a typed error from opening the vault or from an action is caught and
rendered.  Command::map, by contrast, catches no action errors: its Generate
arm is the only one that cannot panic, and a typed error from the dispatched
action escapes as a panic raised by expect (here, for the Add arm). -/
theorem claim1_router_single_outcome_no_panic :
    (∀ (env : CliEnv) (cmd : Args.Command), (writesOf (run_cli env cmd)).length ≤ 1) ∧
    (∀ (menv : Commands.MapEnv) (length : Length) (symbols uppercase lowercase numbers : Bool)
        (count : Nat),
      (Commands.Command.map menv
          (Commands.Command.Generate length symbols uppercase lowercase numbers count)).2 =
        Except.ok ()) ∧
    (∀ (menv : Commands.MapEnv) (service : String) (username password master : Option String)
        (e : String),
      menv.add_password service username master password = Except.error e →
      (Commands.Command.map menv
          (Commands.Command.Add service username password master false Length.Sixteen false
            true true true)).2 = Except.error "Failed to add password") := by
  refine ⟨?_, ?_, ?_⟩
  · intro env cmd
    cases cmd <;> simp only [run_cli] <;> (repeat' split) <;> simp
  · intro menv length symbols uppercase lowercase numbers count
    rfl
  · intro menv service username password master e h
    simp [Commands.Command.map, h]

/-- C1 witness: the panic branch of Command::map at a concrete failing
environment, via the theorem. -/
theorem claim1_witness :
    (Commands.Command.map mapEnvAddFail
        (Commands.Command.Add "svc" none (some "pw") (some "m") false Length.Sixteen false
          true true true)).2 = Except.error "Failed to add password" :=
  claim1_router_single_outcome_no_panic.2.2 mapEnvAddFail "svc" none (some "pw") (some "m")
    "disk full" rfl

/-- C1 counterexample: the claim as stated is false — when add_password returns
a typed error, Command::map does not return normally: expect raises a panic
(modelled as the Except.error outcome). -/
theorem claim1_counterexample :
    (Commands.Command.map mapEnvAddFail
        (Commands.Command.Add "svc" none (some "pw") (some "m") false Length.Sixteen false
          true true true)).2 = Except.error "Failed to add password" := rfl

/-- C4: routing a Generate command never opens a vault and never prompts for a
master passphrase — the Generate arm of run_cli invokes the password generation
action first and emits no prompt and no vault open attempt, and the Generate
arm of Command::map calls generate_password directly and nothing else. -/
theorem claim4_generate_no_vault_no_prompt (env : CliEnv) (menv : Commands.MapEnv)
    (length : Length) (symbols uppercase lowercase numbers : Bool) (count : Nat) :
    (run_cli env (Args.Command.Generate length symbols uppercase lowercase numbers count)).head? =
      some (Event.invoke
        (ActionCall.generate_password length symbols uppercase lowercase numbers count)) ∧
    (run_cli env (Args.Command.Generate length symbols uppercase lowercase numbers
        count)).all (fun ev => !ev.isPrompt && !ev.isOpenAttempt) = true ∧
    (Commands.Command.map menv
        (Commands.Command.Generate length symbols uppercase lowercase numbers count)).1 =
      [Commands.ActionCall.generate_password length symbols uppercase lowercase numbers count] := by
  refine ⟨?_, ?_, rfl⟩
  · simp only [run_cli]
    rfl
  · simp only [run_cli]
    split <;> simp [Event.isPrompt, Event.isOpenAttempt]

/-- C7 (amended): the args::Command enum matched exhaustively by run_cli is a
closed set of exactly seven variants (Add, Generate, List, Remove, Show,
UpdateMaster, Repl), each variant except Generate carries a target file-name
option, and Generate carries none; the separate legacy Command enum of
src/cli/commands.rs is a closed set of exactly five variants (Add, Generate,
List, Remove, Show). -/
theorem claim7_command_variants :
    (∀ t : Fin 7, ∃ cmd : Args.Command, cmd.tagIdx = t) ∧
    (∀ t : Fin 5, ∃ cmd : Commands.Command, cmd.tagIdx = t) ∧
    (∀ cmd : Args.Command, cmd.isGenerate = false → cmd.fileNameField.isSome = true) := by
  refine ⟨?_, ?_, ?_⟩
  · intro t
    fin_cases t
    · exact ⟨Args.Command.Add none "" none none none false Length.Sixteen false false false
        false, by decide⟩
    · exact ⟨Args.Command.Generate Length.Sixteen false false false false 0, by decide⟩
    · exact ⟨Args.Command.List none none false, by decide⟩
    · exact ⟨Args.Command.Remove none "" none none, by decide⟩
    · exact ⟨Args.Command.Show none "" none none, by decide⟩
    · exact ⟨Args.Command.UpdateMaster none none none, by decide⟩
    · exact ⟨Args.Command.Repl none, by decide⟩
  · intro t
    fin_cases t
    · exact ⟨Commands.Command.Add "" none none none false Length.Sixteen false false false
        false, by decide⟩
    · exact ⟨Commands.Command.Generate Length.Sixteen false false false false 0, by decide⟩
    · exact ⟨Commands.Command.List none false, by decide⟩
    · exact ⟨Commands.Command.Remove "" none none, by decide⟩
    · exact ⟨Commands.Command.Show "" none none, by decide⟩
  · intro cmd h
    cases cmd <;> simp_all [Args.Command.isGenerate, Args.Command.fileNameField]

/-- C7 witness: a non-Generate variant carries a file-name option, via the
theorem at a concrete command. -/
theorem claim7_witness :
    (Args.Command.List (some "vault.json") none false).fileNameField.isSome = true :=
  claim7_command_variants.2.2 (Args.Command.List (some "vault.json") none false) rfl

/-- C7 counterexample: the claim as stated is false — the parsed Generate
variant carries no target file-name option at all. -/
theorem claim7_counterexample :
    (Args.Command.Generate Length.Sixteen false true true true 1).fileNameField = none := rfl

/-- C9: the default generation policy of the commands carrying character-class
options (Add and Generate of src/cli/commands.rs) is asymmetric: uppercase,
lowercase and numbers default to true while symbols defaults to false, with
length defaulting to 16 and count (on Generate) to 1. -/
theorem claim9_asymmetric_defaults (service : String) :
    (Commands.addWithDefaults service).symbolsOf = some false ∧
    (Commands.addWithDefaults service).uppercaseOf = some true ∧
    (Commands.addWithDefaults service).lowercaseOf = some true ∧
    (Commands.addWithDefaults service).numbersOf = some true ∧
    (Commands.addWithDefaults service).lengthOf = some 16 ∧
    Commands.generateWithDefaults.symbolsOf = some false ∧
    Commands.generateWithDefaults.uppercaseOf = some true ∧
    Commands.generateWithDefaults.lowercaseOf = some true ∧
    Commands.generateWithDefaults.numbersOf = some true ∧
    Commands.generateWithDefaults.lengthOf = some 16 ∧
    Commands.generateWithDefaults.countOf = some 1 :=
  ⟨rfl, rfl, rfl, rfl, rfl, rfl, rfl, rfl, rfl, rfl, rfl⟩

/-- C10: the generator configured by the Add arm of run_cli is strict — its
builder chain ends in strict(true) — so under the modelled generator contract
every password it produces contains at least one character from each enabled
character class. -/
theorem claim10_add_generator_strict (length : Length)
    (symbols uppercase lowercase numbers : Bool) (pw : List Char) :
    (addPasswordGenerator length symbols uppercase lowercase numbers).strict = true ∧
    ((addPasswordGenerator length symbols uppercase lowercase numbers).isOutput pw = true →
      (lowercase = true → pw.any Char.isLower = true) ∧
      (uppercase = true → pw.any Char.isUpper = true) ∧
      (numbers = true → pw.any Char.isDigit = true) ∧
      (symbols = true → pw.any isSymbolChar = true)) := by
  refine ⟨rfl, ?_⟩
  intro h
  simp only [addPasswordGenerator, PasswordGenerator.new, PasswordGenerator.setLength,
    PasswordGenerator.setLowercase, PasswordGenerator.setUppercase,
    PasswordGenerator.setNumbers, PasswordGenerator.setSymbols, PasswordGenerator.setStrict,
    PasswordGenerator.isOutput, Bool.not_true, Bool.false_or, Bool.and_eq_true,
    Bool.or_eq_true, Bool.not_eq_true'] at h
  refine ⟨?_, ?_, ?_, ?_⟩ <;> intro hflag <;> subst hflag <;> simp_all

/-- C10 witness: a concrete strict output of the Add-arm generator covers every
enabled class, via the theorem. -/
theorem claim10_witness :
    (['A', 'a', '1', 'b'].any Char.isLower = true) ∧
    (['A', 'a', '1', 'b'].any Char.isUpper = true) ∧
    (['A', 'a', '1', 'b'].any Char.isDigit = true) :=
  have h := (claim10_add_generator_strict ⟨4⟩ false true true true ['A', 'a', '1', 'b']).2
    (by decide)
  ⟨h.1 rfl, h.2.1 rfl, h.2.2.1 rfl⟩

@[simp]
theorem any_isInvoke_resolveSecret_fst (env : CliEnv) (l : String) (o : Option String) :
    (resolveSecret env l o).1.any Event.isInvoke = false := by
  cases o <;> rfl

/-- C3: for every vault-backed command (Add, List, Remove, Show, UpdateMaster),
if opening the vault with the resolved path and passphrase fails, run_cli
reports the error and returns without invoking the requested action — the
trace contains no action invocation. -/
theorem claim3_open_failure_skips_action (env : CliEnv) (cmd : Args.Command) (e : String)
    (hvb : cmd.isVaultBacked = true)
    (hopen : env.openVault (resolvedPath cmd) (resolvedMaster env cmd) = some e) :
    (run_cli env cmd).any Event.isInvoke = false := by
  cases cmd <;>
    first
    | (simp only [resolvedPath, resolvedMaster, Args.Command.fileNameOpt,
        Args.Command.masterOpt] at hopen
       simp only [run_cli, resolveSecret_snd]
       rw [hopen]
       simp [Event.isInvoke, List.any_append])
    | simp [Args.Command.isVaultBacked] at hvb

/-- C3 witness: a concrete failing open on a List command produces no action
invocation, via the theorem. -/
theorem claim3_witness :
    (Args.Command.List (some "f") (some "m") false).isVaultBacked = true ∧
    envOpenFail.openVault (resolvedPath (Args.Command.List (some "f") (some "m") false))
      (resolvedMaster envOpenFail (Args.Command.List (some "f") (some "m") false)) =
      some "boom" ∧
    (run_cli envOpenFail (Args.Command.List (some "f") (some "m") false)).any
      Event.isInvoke = false :=
  ⟨rfl, rfl,
    claim3_open_failure_skips_action envOpenFail
      (Args.Command.List (some "f") (some "m") false) "boom" rfl rfl⟩

/-- C8 (amended): for every vault-backed command of args::Command, run_cli
resolves the vault file path as the explicit file-name option when present and
the fixed default filename otherwise, and every vault-backed args::Command
variant carries a file-name option for this resolution; the vault-backed
variants of the legacy Command of src/cli/commands.rs, however, carry no
file-name option at all (see the counterexample). -/
theorem claim8_file_path_resolution (env : CliEnv) (cmd : Args.Command)
    (hvb : cmd.isVaultBacked = true) :
    openPathsOf (run_cli env cmd) =
      [(get_password_store_path cmd.fileNameOpt).getD DEFAULT_PASSWORD_FILENAME] ∧
    cmd.fileNameField.isSome = true := by
  constructor
  · cases cmd <;>
      first
      | exact absurd hvb Bool.false_ne_true
      | (simp only [run_cli, Args.Command.fileNameOpt]
         (repeat' split) <;> simp)
  · cases cmd <;>
      first
      | exact absurd hvb Bool.false_ne_true
      | simp [Args.Command.fileNameField]

/-- C8 witness: concrete path resolution for a Remove command with an explicit
file name, via the theorem. -/
theorem claim8_witness :
    openPathsOf (run_cli envOpenFail (Args.Command.Remove (some "f") "svc" none (some "m"))) =
      ["f"] ∧
    (Args.Command.Remove (some "f") "svc" none (some "m")).fileNameField.isSome = true :=
  claim8_file_path_resolution envOpenFail (Args.Command.Remove (some "f") "svc" none (some "m"))
    rfl

/-- C8 counterexample: the claim as stated is false — the vault-backed List
variant of the legacy Command of src/cli/commands.rs carries no file-name
option, and its dispatch through Command::map passes only the master option and
the show_passwords flag. -/
theorem claim8_counterexample :
    (Commands.Command.List (some "m") true).fileNameField = none ∧
    (Commands.Command.map mapEnvAllOk (Commands.Command.List (some "m") true)).1 =
      [Commands.ActionCall.list_passwords (some "m") true] :=
  ⟨rfl, rfl⟩

/-- C2 (amended): run_cli renders open failures with the Error: prefix only in
the Show and UpdateMaster arms and writes the bare error text in the Add, List
and Remove arms; it renders action failures with the Error: prefix in the Add,
Generate, List, Remove and Show arms, while an UpdateMaster action failure is
rendered as Failed to update master password: followed by the message. -/
theorem claim2_error_rendering :
    (∀ (env : CliEnv) (cmd : Args.Command) (e : String),
      cmd.isVaultBacked = true →
      env.openVault (resolvedPath cmd) (resolvedMaster env cmd) = some e →
      writesOf (run_cli env cmd) = [openFailRender cmd e]) ∧
    (∀ (env : CliEnv) (cmd : Args.Command) (e : String),
      cmd.isVaultBacked = true →
      env.openVault (resolvedPath cmd) (resolvedMaster env cmd) = none →
      env.runAction (dispatchedCall env cmd) = Except.error e →
      writesOf (run_cli env cmd) = [actionFailRender cmd e]) ∧
    (∀ (env : CliEnv) (length : Length) (symbols uppercase lowercase numbers : Bool)
        (count : Nat) (e : String),
      env.runAction (ActionCall.generate_password length symbols uppercase lowercase numbers
          count) = Except.error e →
      writesOf (run_cli env
          (Args.Command.Generate length symbols uppercase lowercase numbers count)) =
        ["Error: " ++ e]) := by
  refine ⟨?_, ?_, ?_⟩
  · intro env cmd e hvb hopen
    cases cmd <;>
      first
      | exact absurd hvb Bool.false_ne_true
      | (simp only [resolvedPath, resolvedMaster, Args.Command.fileNameOpt,
          Args.Command.masterOpt] at hopen
         simp only [run_cli, resolveSecret_snd]
         rw [hopen]
         simp [openFailRender])
  · intro env cmd e hvb hopen hact
    cases cmd <;>
      first
      | exact absurd hvb Bool.false_ne_true
      | (simp only [resolvedPath, resolvedMaster, Args.Command.fileNameOpt,
          Args.Command.masterOpt] at hopen
         simp only [dispatchedCall] at hact
         simp only [run_cli, resolveSecret_snd]
         rw [hopen, hact]
         simp [actionFailRender])
  · intro env length symbols uppercase lowercase numbers count e hact
    simp only [run_cli]
    rw [hact]
    simp

/-- C2 witness: concrete renderings of a failed open on Show and failed actions
on Remove and Generate, via the theorem. -/
theorem claim2_witness :
    writesOf (run_cli envOpenFail (Args.Command.Show (some "f") "svc" none (some "m"))) =
      ["Error: " ++ "boom"] ∧
    writesOf (run_cli envActionFail (Args.Command.Remove (some "f") "svc" none (some "m"))) =
      ["Error: " ++ "kaput"] ∧
    writesOf (run_cli envActionFail
        (Args.Command.Generate Length.Sixteen false true true true 1)) =
      ["Error: " ++ "kaput"] :=
  ⟨claim2_error_rendering.1 envOpenFail (Args.Command.Show (some "f") "svc" none (some "m"))
      "boom" rfl rfl,
   claim2_error_rendering.2.1 envActionFail
      (Args.Command.Remove (some "f") "svc" none (some "m")) "kaput" rfl rfl rfl,
   claim2_error_rendering.2.2 envActionFail Length.Sixteen false true true true 1 "kaput" rfl⟩

/-- C2 counterexample: the claim as stated is false — a failed open on a Remove
command is written as the bare error text, which does not begin with the
prefix Error: (the same holds for the Add and List arms). -/
theorem claim2_counterexample :
    writesOf (run_cli envOpenFail (Args.Command.Remove (some "f") "svc" none (some "m"))) =
      ["boom"] ∧
    ("boom".startsWith "Error: ") = false := by
  constructor
  · rfl
  · decide

/-- C5: for an Add command with the generate flag set, Command::map calls the
password generator before constructing and inserting the record and passes the
generated value as the password, and the run_cli Add arm hands the add action a
generator whose policy (length, symbols, uppercase, lowercase, numbers) is
built exactly from the Add command's own options, independent of any vault
state. -/
theorem claim5_generate_before_record (menv : Commands.MapEnv) (env : CliEnv)
    (file_name : Option String) (service : String) (username password master : Option String)
    (length : Length) (symbols uppercase lowercase numbers : Bool) :
    (Commands.Command.map menv
        (Commands.Command.Add service username password master true length symbols uppercase
          lowercase numbers)).1 =
      [Commands.ActionCall.get_random_password length symbols uppercase lowercase numbers,
       Commands.ActionCall.add_password service username master
         (some (menv.get_random_password length symbols uppercase lowercase numbers))] ∧
    (env.openVault
        (resolvedPath (Args.Command.Add file_name service username password master true length
          symbols uppercase lowercase numbers))
        (resolvedMaster env (Args.Command.Add file_name service username password master true
          length symbols uppercase lowercase numbers)) = none →
      Event.invoke (ActionCall.add_password service username password true
          (addPasswordGenerator length symbols uppercase lowercase numbers)) ∈
        run_cli env (Args.Command.Add file_name service username password master true length
          symbols uppercase lowercase numbers)) := by
  constructor
  · simp only [Commands.Command.map]
    split <;> simp
  · intro hopen
    simp only [resolvedPath, resolvedMaster, Args.Command.fileNameOpt,
      Args.Command.masterOpt] at hopen
    simp only [run_cli, resolveSecret_snd]
    rw [hopen]
    simp

/-- C5 witness: the invoked add action at a concrete command carries the
generator built from that command's own options, via the theorem. -/
theorem claim5_witness :
    Event.invoke (ActionCall.add_password "svc" none none true
        (addPasswordGenerator Length.Sixteen false true true true)) ∈
      run_cli envAllOk (Args.Command.Add (some "f") "svc" none none (some "m") true
        Length.Sixteen false true true true) :=
  (claim5_generate_before_record mapEnvAllOk envAllOk (some "f") "svc" none none (some "m")
      Length.Sixteen false true true true).2 rfl

/-- C6: for every vault-backed command run_cli obtains the master passphrase
from the explicit option when present and otherwise from the non-echoing prompt
labelled master password (UpdateMaster prompts additionally for the new master
password when its option is absent); the passphrase passed to the vault open is
exactly the resolved value — never defaulted or inferred — and on a successful
open the dispatched action receives the resolved inputs (in particular
UpdateMaster receives the resolved new master passphrase). -/
theorem claim6_master_resolution (env : CliEnv) (cmd : Args.Command)
    (hvb : cmd.isVaultBacked = true) :
    promptLabelsOf (run_cli env cmd) = expectedPromptLabels cmd ∧
    openMastersOf (run_cli env cmd) = [resolvedMaster env cmd] ∧
    (env.openVault (resolvedPath cmd) (resolvedMaster env cmd) = none →
      Event.invoke (dispatchedCall env cmd) ∈ run_cli env cmd) := by
  refine ⟨?_, ?_, ?_⟩
  · cases cmd <;>
      first
      | exact absurd hvb Bool.false_ne_true
      | (simp only [run_cli]
         (repeat' split) <;>
           simp [expectedPromptLabels, Args.Command.masterOpt])
  · cases cmd <;>
      first
      | exact absurd hvb Bool.false_ne_true
      | (simp only [run_cli, resolveSecret_snd]
         (repeat' split) <;>
           simp [resolvedMaster, Args.Command.masterOpt])
  · intro hopen
    cases cmd <;>
      first
      | exact absurd hvb Bool.false_ne_true
      | (simp only [resolvedPath, resolvedMaster, Args.Command.fileNameOpt,
          Args.Command.masterOpt] at hopen
         simp only [run_cli, resolveSecret_snd]
         rw [hopen]
         simp [dispatchedCall])

/-- C6 witness: a concrete UpdateMaster command with both options absent prompts
for master password then new master password, opens the vault with the typed
master value, and dispatches the update action with the typed new value, via
the theorem. -/
theorem claim6_witness :
    promptLabelsOf (run_cli envAllOk (Args.Command.UpdateMaster (some "f") none none)) =
      ["master password", "new master password"] ∧
    openMastersOf (run_cli envAllOk (Args.Command.UpdateMaster (some "f") none none)) =
      ["typed"] ∧
    Event.invoke (ActionCall.update_master_password "typed") ∈
      run_cli envAllOk (Args.Command.UpdateMaster (some "f") none none) :=
  have h :=
    claim6_master_resolution envAllOk (Args.Command.UpdateMaster (some "f") none none) rfl
  ⟨h.1, h.2.1, h.2.2 rfl⟩
